import Mathlib

/-!
Verification of the BlueJeans AI design-engine backend (src/server.js).

This file gives a shallow embedding, in Lean 4, of the request pipeline of
src/server.js and proves the specified properties about it:

* the Reference Locator (function wixToHttps, src/server.js lines 51-84);
* the Asset Fetcher's response handling (downloadImageToBase64, lines 89-113);
* the Generation Client's request construction and response extraction
  (generateWithGeminiFlashImage, lines 118-177);
* the Prompt Compositor (the finalPrompt construction inside the
  POST /api/design handler, lines 212-258);
* the Request Handler (the POST /api/design handler, lines 182-289).

JavaScript strings are modelled as Lean String values, with JS string
primitives (startsWith, indexOf, slice, replace-first-occurrence, trim,
substring, and the truthiness conventions) re-implemented as executable
Lean functions over the underlying character lists.  Network effects are
modelled by oracles: the handler receives the HTTP fetch and the model
generation call as function parameters, and the handler result records
whether each oracle's code path was reached (fetchCalled / genCalled), so
that "no network call is attempted" is a provable statement.
-/

set_option maxRecDepth 16384

/-! ## JavaScript string primitives -/

/-- The set of characters removed by the ECMAScript String.prototype.trim
(WhiteSpace and LineTerminator code points). -/
def isJsWs (c : Char) : Bool :=
  c == ' ' || c == '\t' || c == '\n' || c == '\r' || c == '\x0b' || c == '\x0c' ||
  c == '\u00A0' || c == '\uFEFF' || c == '\u1680' || c == '\u2000' || c == '\u2001' ||
  c == '\u2002' || c == '\u2003' || c == '\u2004' || c == '\u2005' || c == '\u2006' ||
  c == '\u2007' || c == '\u2008' || c == '\u2009' || c == '\u200A' || c == '\u2028' ||
  c == '\u2029' || c == '\u202F' || c == '\u205F' || c == '\u3000'

/-- Drop leading JS whitespace from a character list. -/
def dropWsL : List Char → List Char
  | [] => []
  | c :: cs => if isJsWs c then dropWsL cs else c :: cs

/-- JavaScript String.prototype.trim: drop whitespace from both ends. -/
def jsTrim (s : String) : String :=
  String.mk ((dropWsL ((dropWsL s.data).reverse)).reverse)

/-- Boolean prefix test on character lists (JS String.prototype.startsWith). -/
def prefixOfB : List Char → List Char → Bool
  | [], _ => true
  | _ :: _, [] => false
  | a :: as, b :: bs => a == b && prefixOfB as bs

/-- Boolean substring test: does the list contain needle as a contiguous
infix?  (JS String.prototype.includes.) -/
def infixOfB (needle : List Char) : List Char → Bool
  | [] => needle.isEmpty
  | l@(_ :: t) => prefixOfB needle l || infixOfB needle t

/-- String-level substring test: containsStr hay needle is true iff needle
occurs contiguously inside hay. -/
def containsStr (hay needle : String) : Bool := infixOfB needle.data hay.data

/-- JS String.prototype.replace with a string pattern: replace the first
occurrence of pat (if any) by repl. -/
def replaceFirstL (pat repl : List Char) : List Char → List Char
  | [] => if pat.isEmpty then repl else []
  | c :: cs =>
    if prefixOfB pat (c :: cs) then repl ++ (c :: cs).drop pat.length
    else c :: replaceFirstL pat repl cs

/-- JS String.prototype.indexOf for a single character: index of the first
occurrence, none when absent (JS returns -1). -/
def indexOfCharB (c : Char) : List Char → Option Nat
  | [] => none
  | a :: as => if a == c then some 0 else (indexOfCharB c as).map (fun n => n + 1)

/-- JS truthiness of an optional string: undefined and the empty string are
falsy, every other string is truthy. -/
def optTruthyS : Option String → Bool
  | none => false
  | some s => !s.data.isEmpty

/-- The JS expression (o || dflt) for an optional string o: the default is
used when o is undefined or empty. -/
def jsOrOpt (o : Option String) (dflt : String) : String :=
  match o with
  | some s => if s.data.isEmpty then dflt else s
  | none => dflt

/-! ## JavaScript request-field values

A request-body field as seen by the handler: absent (undefined), a string,
or some other JS value of which only the truthiness matters to this code. -/

inductive JsVal where
  | undef : JsVal
  | str : String → JsVal
  | other : Bool → JsVal
deriving DecidableEq

/-- JS truthiness of a request-body field. -/
def jsTruthy : JsVal → Bool
  | JsVal.undef => false
  | JsVal.str s => !s.data.isEmpty
  | JsVal.other t => t

/-! ## Reference Locator: wixToHttps (src/server.js lines 51-84)

Faithful transcription:
* a falsy or non-string input returns null;
* an input starting with http:// or https:// is returned unchanged;
* an input not starting with wix:image:// returns null (after a warning);
* otherwise the first occurrence of the text wix:image://v1/ is removed,
  the result is cut at the first slash (JS indexOf / slice), and the cut
  segment is spliced into the static-host URL template with a ?raw=1
  query appended.  The try/catch cannot fire on string operations. -/

def wixToHttps (wixUrl : JsVal) : Option String :=
  match wixUrl with
  | JsVal.str u =>
    if u.data.isEmpty then none
    else if prefixOfB ("http://").data u.data || prefixOfB ("https://").data u.data then
      some u
    else if !(prefixOfB ("wix:image://").data u.data) then none
    else
      let withoutPrefix := replaceFirstL (("wix:image://v1/").data) [] u.data
      let idWithExt :=
        match indexOfCharB '/' withoutPrefix with
        | none => withoutPrefix
        | some i => withoutPrefix.take i
      some (String.mk (("https://static.wixstatic.com/media/").data
        ++ idWithExt ++ ("?raw=1").data))
  | _ => none

/-! ## Asset Fetcher: downloadImageToBase64 (src/server.js lines 89-113) -/

/-- The observable part of an upstream HTTP response, as consumed by
downloadImageToBase64: the ok flag, numeric status, status text, the
response body as text (read only for the diagnostic log), the body bytes
in base64 form, and the declared content-type header. -/
structure HttpResponse where
  ok : Bool
  status : Nat
  statusText : String
  bodyText : String
  bodyBase64 : String
  contentType : Option String

/-- downloadImageToBase64, given the response the fetch returned: on a
non-ok status it throws the error message built from status and
statusText (the body is only logged); on success it returns the base64
bytes and the content type, defaulting to image/jpeg. -/
def downloadImageToBase64 (resp : HttpResponse) : Except String (String × String) :=
  if !resp.ok then
    Except.error ("Slab image download failed: " ++ Nat.repr resp.status
      ++ " " ++ resp.statusText)
  else
    Except.ok (resp.bodyBase64, jsOrOpt resp.contentType "image/jpeg")

/-! ## Generation Client (src/server.js lines 118-177) -/

/-- An inlineData object inside a response part; both fields may be absent. -/
structure InlineData where
  data : Option String
  mimeType : Option String
deriving DecidableEq

/-- One part of a generation-response candidate: polymorphic over text and
inline binary payloads (either, both or neither field may be present). -/
structure GenPart where
  text : Option String
  inlineData : Option InlineData
deriving DecidableEq

/-- The content object of a candidate; its parts array may be absent. -/
structure GenContent where
  parts : Option (List GenPart)
deriving DecidableEq

/-- One candidate of a generation response; its content may be absent. -/
structure GenCandidate where
  content : Option GenContent
deriving DecidableEq

/-- A generation response: an optional list of candidates (covering the
optional chaining result?.response?.candidates in the source). -/
structure GenResponse where
  candidates : Option (List GenCandidate)
deriving DecidableEq

/-- The predicate of the source's find call: p.inlineData && p.inlineData.data
(the part carries an inlineData object with truthy data). -/
def partHasImage (p : GenPart) : Bool :=
  match p.inlineData with
  | some d => optTruthyS d.data
  | none => false

/-- The predicate of the source's fallback find call: p.text is truthy. -/
def partHasText (p : GenPart) : Bool := optTruthyS p.text

/-- imagePart.inlineData.data as read by the source once found. -/
def partData (p : GenPart) : String :=
  match p.inlineData with
  | some d => (match d.data with | some s => s | none => "")
  | none => ""

/-- imagePart.inlineData.mimeType || "image/png" as read by the source. -/
def partMime (p : GenPart) : String :=
  match p.inlineData with
  | some d => jsOrOpt d.mimeType "image/png"
  | none => "image/png"

/-- The response-extraction logic of generateWithGeminiFlashImage
(src/server.js lines 148-176): take the first candidate; fail when the
candidate, its content or its parts are missing; otherwise return the
first part with truthy inline data, and when none exists throw, quoting
the first 100 characters of the first text part when one is present. -/
def extractImage (r : GenResponse) : Except String (String × String) :=
  match r.candidates with
  | none => Except.error "Gemini 3 Pro Image returned an empty response."
  | some cands =>
    match cands with
    | [] => Except.error "Gemini 3 Pro Image returned an empty response."
    | cand :: _ =>
      match cand.content with
      | none => Except.error "Gemini 3 Pro Image returned an empty response."
      | some ct =>
        match ct.parts with
        | none => Except.error "Gemini 3 Pro Image returned an empty response."
        | some parts =>
          match parts.find? partHasImage with
          | some ip => Except.ok (partData ip, partMime ip)
          | none =>
            match parts.find? partHasText with
            | some tp =>
              Except.error ("Image generation failed. Model returned only text: \""
                ++ String.mk ((match tp.text with | some t => t | none => "").data.take 100)
                ++ "...\"")
            | none =>
              Except.error
                "Image generation failed. Response does not contain inline image data."

/-- One part of the outbound generation request. -/
inductive ReqPart where
  | inline : String → String → ReqPart
  | text : String → ReqPart
deriving DecidableEq

/-- One contents entry of the outbound generation request. -/
structure RoleContent where
  role : String
  parts : List ReqPart
deriving DecidableEq

/-- The outbound generateContent call as the source constructs it: the
contents payload, plus the SDK's optional per-request timeout (the
requestOptions argument of the SDK).  The source passes no requestOptions
anywhere, so the field records whether any wait bound was configured. -/
structure GenerateRequest where
  contents : List RoleContent
  timeoutMillis : Option Nat
deriving DecidableEq

/-- The request built by generateWithGeminiFlashImage (src/server.js lines
127-146): one user turn whose parts are the optional inline slab image
(present only when both slabBase64 and slabMime are truthy, mirroring the
conditional-plus-filter(Boolean) construction) followed by the prompt
text.  No requestOptions and hence no timeout is supplied. -/
def buildGenerateRequest (prompt : String) (slabBase64 slabMime : Option String) :
    GenerateRequest :=
  let inlinePart : Option ReqPart :=
    match slabBase64, slabMime with
    | some b, some m =>
      if !b.data.isEmpty && !m.data.isEmpty then some (ReqPart.inline m b) else none
    | _, _ => none
  let parts : List ReqPart :=
    match inlinePart with
    | some ip => [ip, ReqPart.text prompt]
    | none => [ReqPart.text prompt]
  ⟨[⟨"user", parts⟩], none⟩

/-- generateWithGeminiFlashImage (src/server.js lines 118-177), with the
remote model call abstracted as an oracle from requests to responses. -/
def generateWithGeminiFlashImage (genO : GenerateRequest → GenResponse)
    (prompt : String) (slabBase64 slabMime : Option String) :
    Except String (String × String) :=
  extractImage (genO (buildGenerateRequest prompt slabBase64 slabMime))

/-! ## Prompt Compositor (src/server.js lines 212-258) -/

/-- The baseStyle template literal (lines 216-223), before its trim. -/
def baseStyleLit : String :=
  "\nYou are an expert architectural visualization and CGI renderer.\nGenerate an ultra-photorealistic, high-resolution (4K or higher) interior or exterior scene.\nUse physically based rendering (PBR), realistic global illumination, soft natural or architectural lighting,\naccurate shadows and reflections, and cinematic composition at human eye level.\n**Ensure the lighting accurately highlights the unique characteristics and luster of the stone.**\nDo not generate any text, watermarks, UI elements, or logos in the image.\n    "

/-- baseStyle (line 216): the trimmed rendering-style block. -/
def baseStyle : String := jsTrim baseStyleLit

/-- The materialBlock template text before the interpolated label
(line 228). -/
def materialLabelPre : String := "\nThe core material is premium Blue Jeans Marble "

/-- The materialBlock template text after the interpolated label
(lines 228-235). -/
def materialLabelPost : String :=
  ", a quarry-origin exotic dolomitic marble from Erzurum, Turkey.\nThe generated scene must preserve the texture and pattern of the uploaded slab image: deep denim-blue tones,\ndramatic veining with bronze and white accents, and a fine crystalline structure.\nUse this slab image as the authoritative reference for color, veining direction and pattern density.\nApply this Blue Jeans Marble to the key surfaces described by the user (for example: countertops, kitchen islands,\nbathroom vanities, shower walls, feature walls, flooring, fireplaces, or reception desks).\nThe stone surface should appear highly polished with realistic reflections and subtle light bloom, without exaggeration.\n      "

/-- The labelled material-fidelity block (lines 227-235). -/
def materialBlockWithLabel (label : String) : String :=
  jsTrim (materialLabelPre ++ label ++ materialLabelPost)

/-- The unlabelled material-fidelity block (lines 236-244); its text is the
labelled template with the interpolation and its preceding space removed. -/
def materialBlockNoLabel : String :=
  jsTrim ("\nThe core material is premium Blue Jeans Marble" ++ materialLabelPost)

/-- The connecting sentence of the final template (lines 255-257 context). -/
def connectorLit : String :=
  "\n\nNow follow the user request exactly and compose the best possible scene:\n\n"

/-- userBlock (line 247). -/
def userBlock (prompt : String) : String := "USER PROMPT: " ++ prompt

/-- finalPrompt (lines 226-258): baseStyle, the material block selected by
the truthiness of slabLabel, the connecting sentence and the user block,
joined by the final template literal and trimmed. -/
def buildFinalPrompt (prompt : String) (slabLabel : Option String) : String :=
  let materialBlock :=
    if optTruthyS slabLabel then
      materialBlockWithLabel (match slabLabel with | some l => l | none => "")
    else materialBlockNoLabel
  jsTrim ("\n" ++ baseStyle ++ "\n\n" ++ materialBlock ++ connectorLit
    ++ userBlock prompt ++ "\n    ")

/-! ## Request Handler: POST /api/design (src/server.js lines 182-289) -/

/-- The fields the handler destructures from the request body. -/
structure ReqBody where
  prompt : JsVal
  slabImageUrl : JsVal
  slabLabel : Option String
deriving DecidableEq

/-- The validation applied to prompt (line 187):
prompt && typeof prompt === "string" && prompt.trim() is truthy. -/
def promptOk : JsVal → Bool
  | JsVal.str s => !(jsTrim s).data.isEmpty
  | _ => false

/-- The string value of a validated prompt field. -/
def promptString : JsVal → String
  | JsVal.str s => s
  | _ => ""

/-- MODEL_NAME (line 33). -/
def MODEL_NAME : String := "gemini-3-pro-image-preview"

/-- The fallback message of the catch clause (lines 284-286). -/
def defaultCatchMsg : String :=
  "Gemini 3 Pro Image request failed with an unexpected error. Please try again."

/-- The observable outcome of one handler run: the HTTP status and JSON
fields of the response, plus instrumentation recording whether the code
path reached the asset fetch and the generation call. -/
structure HandlerOutcome where
  status : Nat
  ok : Bool
  error : Option String
  imageBase64 : Option String
  mimeType : Option String
  modelName : Option String
  received : Option ReqBody
  fetchCalled : Bool
  genCalled : Bool
deriving DecidableEq

/-- The 500 response of the catch clause: err.message || defaultCatchMsg. -/
def catch500 (msg : String) (fetched generated : Bool) : HandlerOutcome :=
  ⟨500, false, some (if msg.data.isEmpty then defaultCatchMsg else msg),
    none, none, none, none, fetched, generated⟩

/-- The POST /api/design handler (src/server.js lines 182-289), with the
two network effects passed as oracles.  Sequencing is faithful to the
source: prompt validation, slabImageUrl truthiness check, reference
resolution, asset fetch, prompt composition, generation, response; any
thrown error is converted by the catch clause into a 500 response. -/
def designHandler (body : Option ReqBody)
    (fetchO : String → HttpResponse) (genO : GenerateRequest → GenResponse) :
    HandlerOutcome :=
  let b := match body with
    | some bb => bb
    | none => ⟨JsVal.undef, JsVal.undef, none⟩
  if !(promptOk b.prompt) then
    ⟨400, false, some "Prompt cannot be empty.", none, none, none, none, false, false⟩
  else if !(jsTruthy b.slabImageUrl) then
    ⟨400, false, some "slabImageUrl is missing. Please select a slab first.",
      none, none, none, none, false, false⟩
  else
    match wixToHttps b.slabImageUrl with
    | none => catch500 "Could not convert slabImageUrl to a valid https URL." false false
    | some httpsUrl =>
      let resp := fetchO httpsUrl
      match downloadImageToBase64 resp with
      | Except.error msg => catch500 msg true false
      | Except.ok (slabBase64, slabMime) =>
        let finalPrompt := buildFinalPrompt (promptString b.prompt) b.slabLabel
        match generateWithGeminiFlashImage genO finalPrompt (some slabBase64)
            (some slabMime) with
        | Except.error msg => catch500 msg true true
        | Except.ok (imageBase64, mimeType) =>
          ⟨200, true, none, some imageBase64, some mimeType, some MODEL_NAME,
            some b, true, true⟩

/-! ## Concrete oracles and responses used by witnesses -/

/-- A fetch oracle whose every response is a successful JPEG download. -/
def fetchOkOracle : String → HttpResponse :=
  fun _ => ⟨true, 200, "OK", "", "U0xBQg==", some "image/jpeg"⟩

/-- A fetch oracle whose every response is a 404 with an upstream error
page in the body. -/
def fetch404Oracle : String → HttpResponse :=
  fun _ => ⟨false, 404, "Not Found", "upstream error page", "", none⟩

/-- A generation response whose single candidate carries one inline image
part. -/
def genImageResponse : GenResponse :=
  ⟨some [⟨some ⟨some [⟨none, some ⟨some "AAAA", some "image/png"⟩⟩]⟩⟩]⟩

/-- A generation oracle that always returns genImageResponse. -/
def genOkOracle : GenerateRequest → GenResponse := fun _ => genImageResponse

/-- Does any candidate of a response contain a part with truthy inline
data anywhere?  (Used to state the no-image-anywhere hypothesis.) -/
def hasImageAnywhere (r : GenResponse) : Bool :=
  match r.candidates with
  | none => false
  | some cands =>
    cands.any (fun c =>
      match c.content with
      | none => false
      | some ct =>
        match ct.parts with
        | none => false
        | some ps => ps.any partHasImage)

/-- Does any candidate of a response contain a text part whose content
includes the given string? -/
def hasTextContent (r : GenResponse) (t : String) : Bool :=
  match r.candidates with
  | none => false
  | some cands =>
    cands.any (fun c =>
      match c.content with
      | none => false
      | some ct =>
        match ct.parts with
        | none => false
        | some ps => ps.any (fun p =>
            match p.text with
            | some s => containsStr s t
            | none => false))

/-- The generation response of the C5 counterexample: two candidates, the
first with an empty parts array, the second with a lone text part; no
inline-binary part exists anywhere. -/
def textOnlySecondCandidate : GenResponse :=
  ⟨some [⟨some ⟨some []⟩⟩, ⟨some ⟨some [⟨some "sorry", none⟩]⟩⟩]⟩

/-- Is a non-empty string input rejected by the Reference Locator?  This is
the exact rejection condition of the source: empty, non-string, or not
carrying any of the three recognized prefixes.  (Prop-valued so that the
theorems can hypothesise it.) -/
def locatorRejects (v : JsVal) : Prop :=
  match v with
  | JsVal.str s =>
    s.data.isEmpty = true ∨
      (prefixOfB ("http://").data s.data = false ∧
       prefixOfB ("https://").data s.data = false ∧
       prefixOfB ("wix:image://").data s.data = false)
  | _ => True

/-! ## Generic lemmas about the string primitives -/

theorem strMk_eq {l : List Char} {s : String} (h : l = s.data) : String.mk l = s := by
  cases s
  exact congrArg String.mk h

theorem strAppend_assoc (a b c : String) : a ++ b ++ c = a ++ (b ++ c) := by
  apply strMk_eq
  simp [String.data_append, List.append_assoc]

theorem prefixOfB_self_append (x r : List Char) : prefixOfB x (x ++ r) = true := by
  induction x with
  | nil => rfl
  | cons a as ih => simp [prefixOfB, ih]

theorem infixOfB_of_prefixOfB {x l : List Char} (h : prefixOfB x l = true) :
    infixOfB x l = true := by
  cases l with
  | nil =>
    cases x with
    | nil => rfl
    | cons a as => exact absurd h (by simp [prefixOfB])
  | cons c cs => simp [infixOfB, h]

theorem infixOfB_cons_of {x t : List Char} (c : Char) (h : infixOfB x t = true) :
    infixOfB x (c :: t) = true := by
  simp [infixOfB, h]

theorem infixOfB_append_left (a x b : List Char) : infixOfB x (a ++ x ++ b) = true := by
  induction a with
  | nil =>
    simp only [List.nil_append]
    exact infixOfB_of_prefixOfB (prefixOfB_self_append x b)
  | cons c cs ih => exact infixOfB_cons_of c ih

theorem containsStr_append_middle (a x b : String) :
    containsStr (a ++ x ++ b) x = true := by
  show infixOfB x.data (a ++ x ++ b).data = true
  rw [String.data_append, String.data_append]
  exact infixOfB_append_left a.data x.data b.data

theorem replaceFirstL_at_front (pat repl l r : List Char) (h : l = pat ++ r)
    (hpat : pat ≠ []) : replaceFirstL pat repl l = repl ++ r := by
  subst h
  cases pat with
  | nil => exact absurd rfl hpat
  | cons a as =>
    rw [List.cons_append]
    have hpre : prefixOfB (a :: as) (a :: (as ++ r)) = true := by
      rw [← List.cons_append]
      exact prefixOfB_self_append (a :: as) r
    simp only [replaceFirstL, hpre, if_true]
    rw [← List.cons_append, List.drop_left]

theorem indexOfCharB_append_self {c : Char} {l : List Char} (r : List Char)
    (h : c ∉ l) : indexOfCharB c (l ++ c :: r) = some l.length := by
  induction l with
  | nil => simp [indexOfCharB]
  | cons a as ih =>
    have hac : (a == c) = false := by
      apply beq_eq_false_iff_ne.mpr
      intro hh
      exact h (hh ▸ List.mem_cons_self a as)
    have has : c ∉ as := fun hm => h (List.mem_cons_of_mem a hm)
    rw [List.cons_append, indexOfCharB, if_neg (by simp [hac]), ih has]
    rfl

/-! ## Claim C8: http(s) inputs pass through unchanged -/

/-- Claim C8: for every input to the Reference Locator that is already an
absolute http:// or https:// URL, the output equals the input unchanged
(src/server.js lines 56-58). -/
theorem https_input_unchanged (u : String)
    (h : prefixOfB ("http://").data u.data = true ∨
         prefixOfB ("https://").data u.data = true) :
    wixToHttps (JsVal.str u) = some u := by
  have hne : u.data.isEmpty = false := by
    cases hu : u.data with
    | nil => rcases h with h | h <;> (rw [hu] at h; exact absurd h (by decide))
    | cons a as => rfl
  rcases h with h | h <;> simp [wixToHttps, hne, h]

/-- Witness for C8 at the spec's example input. -/
theorem https_input_unchanged_witness :
    wixToHttps (JsVal.str "https://already.https/url.jpg") =
      some "https://already.https/url.jpg" :=
  https_input_unchanged "https://already.https/url.jpg" (Or.inr (by decide))

/-! ## Claim C1: media-identifier extraction -/

/-- Claim C1 (amended): for a structured reference that does contain a
displayName segment, i.e. of the form wix:image://v1/<mid>/<rest> with no
slash inside <mid>, the Reference Locator extracts exactly <mid> (the
segment up to the next slash) and splices it into the static-host URL.
The code cuts only at the slash; the hash is handled only because it lies
in the discarded <rest>. -/
theorem wixToHttps_extracts_segment (mid rest : String) (hmid : '/' ∉ mid.data) :
    wixToHttps (JsVal.str ("wix:image://v1/" ++ mid ++ "/" ++ rest)) =
      some ("https://static.wixstatic.com/media/" ++ mid ++ "?raw=1") := by
  have hdata : ("wix:image://v1/" ++ mid ++ "/" ++ rest).data
      = ("wix:image://v1/").data ++ (mid.data ++ '/' :: rest.data) := by
    simp only [String.data_append, List.append_assoc]
    rfl
  have h0 : (("wix:image://v1/").data ++ (mid.data ++ '/' :: rest.data)).isEmpty
      = false := rfl
  have h1 : prefixOfB ("http://").data
      (("wix:image://v1/").data ++ (mid.data ++ '/' :: rest.data)) = false := rfl
  have h2 : prefixOfB ("https://").data
      (("wix:image://v1/").data ++ (mid.data ++ '/' :: rest.data)) = false := rfl
  have h3 : prefixOfB ("wix:image://").data
      (("wix:image://v1/").data ++ (mid.data ++ '/' :: rest.data)) = true := rfl
  have hrepl : replaceFirstL (("wix:image://v1/").data) []
      (("wix:image://v1/").data ++ (mid.data ++ '/' :: rest.data))
      = mid.data ++ '/' :: rest.data := by
    rw [replaceFirstL_at_front _ _ _ _ rfl (by decide)]
    exact List.nil_append _
  have hidx : indexOfCharB '/' (mid.data ++ '/' :: rest.data) = some mid.data.length :=
    indexOfCharB_append_self rest.data hmid
  have htake : (mid.data ++ '/' :: rest.data).take mid.data.length = mid.data :=
    List.take_left mid.data _
  simp only [wixToHttps]
  rw [hdata]
  simp only [h0, h1, h2, h3, hrepl, hidx, htake, Bool.or_self, Bool.not_true,
    Bool.false_eq_true, if_false]
  refine congrArg some (strMk_eq ?_)
  simp [String.data_append, List.append_assoc]

/-- Witness for C1 (amended) at the spec's example reference. -/
theorem wixToHttps_extracts_segment_witness :
    wixToHttps (JsVal.str ("wix:image://v1/" ++ "ABC123~mv2.jpg" ++ "/"
        ++ "name.jpg#originWidth=1600")) =
      some ("https://static.wixstatic.com/media/" ++ "ABC123~mv2.jpg" ++ "?raw=1") :=
  wixToHttps_extracts_segment "ABC123~mv2.jpg" "name.jpg#originWidth=1600" (by decide)

/-- Counterexample to C1 as stated: on a structured reference with metadata
but no displayName segment, the code does not stop at the hash, so the
resolved URL keeps the metadata suffix inside the identifier segment. -/
theorem wixToHttps_keeps_metadata_without_display_name :
    wixToHttps (JsVal.str "wix:image://v1/ABC123~mv2.jpg#originWidth=1600") =
      some "https://static.wixstatic.com/media/ABC123~mv2.jpg#originWidth=1600?raw=1" ∧
    containsStr "https://static.wixstatic.com/media/ABC123~mv2.jpg#originWidth=1600?raw=1"
      "#originWidth=1600" = true := by
  constructor
  · decide
  · decide

/-! ## Claim C2: rejected references cause no fetch -/

/-- Claim C2 (amended): for every input that is empty, not a string, or does
not start with any of the three recognized prefixes (http://, https://,
wix:image://), the Reference Locator returns null, and for any request
carrying such a value as slabImageUrl the handler reaches neither the
asset fetch nor the generation call.  (The claim's broader wording fails:
an input matching the wix:image:// prefix but not the v1 form is not
rejected; see the counterexample.) -/
theorem invalidReference_no_fetch (v : JsVal) (h : locatorRejects v) :
    wixToHttps v = none ∧
    ∀ (p : JsVal) (lbl : Option String) (fo : String → HttpResponse)
      (go : GenerateRequest → GenResponse),
      (designHandler (some ⟨p, v, lbl⟩) fo go).fetchCalled = false ∧
      (designHandler (some ⟨p, v, lbl⟩) fo go).genCalled = false := by
  have hw : wixToHttps v = none := by
    cases v with
    | undef => rfl
    | other t => rfl
    | str s =>
      rcases h with h | ⟨h1, h2, h3⟩
      · simp [wixToHttps, h]
      · by_cases he : s.data.isEmpty = true
        · simp [wixToHttps, he]
        · simp [wixToHttps, he, h1, h2, h3]
  refine ⟨hw, ?_⟩
  intro p lbl fo go
  cases hp : promptOk p with
  | false => simp [designHandler, hp]
  | true =>
    cases hjt : jsTruthy v with
    | false => simp [designHandler, hp, hjt]
    | true => simp [designHandler, hp, hjt, hw, catch500]

/-- Witness for C2 (amended) at a non-conforming reference. -/
theorem invalidReference_no_fetch_witness :
    wixToHttps (JsVal.str "not-a-url") = none ∧
    (designHandler (some ⟨JsVal.str "x", JsVal.str "not-a-url", none⟩)
        fetchOkOracle genOkOracle).fetchCalled = false := by
  have h := invalidReference_no_fetch (JsVal.str "not-a-url")
    (Or.inr ⟨by decide, by decide, by decide⟩)
  exact ⟨h.1, (h.2 (JsVal.str "x") none fetchOkOracle genOkOracle).1⟩

/-- Counterexample to C2 as stated: wix:image://v2/abc matches neither
recognized form (it is not http(s) and not a v1 structured reference),
yet resolution does not fail: the locator produces a URL built from a
nonsense segment and the handler does invoke the asset fetch. -/
theorem unknownScheme_still_fetched :
    wixToHttps (JsVal.str "wix:image://v2/abc") =
      some "https://static.wixstatic.com/media/wix:image:?raw=1" ∧
    prefixOfB ("wix:image://v1/").data ("wix:image://v2/abc").data = false ∧
    (designHandler (some ⟨JsVal.str "x", JsVal.str "wix:image://v2/abc", none⟩)
        fetchOkOracle genOkOracle).fetchCalled = true := by
  refine ⟨by decide, by decide, ?_⟩
  rfl

/-! ## Claim C3: no wait bound is configured on the generation call -/

/-- Claim C3 (refuted; the code omits the required bound): the source
passes no requestOptions to the SDK, so every generation request is built
with no client-side timeout at all — in particular no bound in the
required 120-300 second band exists. -/
theorem generateRequest_has_no_timeout (p : String) (b m : Option String) :
    (buildGenerateRequest p b m).timeoutMillis = none ∧
    ¬∃ t, (buildGenerateRequest p b m).timeoutMillis = some t ∧
      120000 ≤ t ∧ t ≤ 300000 := by
  refine ⟨rfl, ?_⟩
  rintro ⟨t, ht, -, -⟩
  rw [show (buildGenerateRequest p b m).timeoutMillis = none from rfl] at ht
  exact Option.noConfusion ht

/-! ## Claim C4: first inline-binary part wins -/

/-- Claim C4: when the first candidate's parts contain at least one part
with truthy inline data, the client returns the data and the (defaulted)
mime type of the first such part — List.find? returns the first match,
and its predicate ignores text-only parts (src/server.js lines 154-176). -/
theorem extractImage_first_inline_part (cand : GenCandidate)
    (rest : List GenCandidate) (ct : GenContent) (parts : List GenPart) (ip : GenPart)
    (h1 : cand.content = some ct) (h2 : ct.parts = some parts)
    (h3 : parts.find? partHasImage = some ip) :
    extractImage ⟨some (cand :: rest)⟩ = Except.ok (partData ip, partMime ip) := by
  simp [extractImage, h1, h2, h3]

/-- Witness for C4 at the spec's example parts list: a text part followed
by an inline binary part. -/
theorem extractImage_first_inline_part_witness :
    extractImage ⟨some [⟨some ⟨some [⟨some "desc", none⟩,
        ⟨none, some ⟨some "AAAA", some "image/png"⟩⟩]⟩⟩]⟩ =
      Except.ok ("AAAA", "image/png") := by
  have h := extractImage_first_inline_part
    ⟨some ⟨some [⟨some "desc", none⟩, ⟨none, some ⟨some "AAAA", some "image/png"⟩⟩]⟩⟩
    [] ⟨some [⟨some "desc", none⟩, ⟨none, some ⟨some "AAAA", some "image/png"⟩⟩]⟩
    [⟨some "desc", none⟩, ⟨none, some ⟨some "AAAA", some "image/png"⟩⟩]
    ⟨none, some ⟨some "AAAA", some "image/png"⟩⟩ rfl rfl rfl
  exact h

/-! ## Claim C10: absent mime type defaults to image/png -/

/-- Claim C10: when the first found inline-binary part has no mimeType
field, the client returns its data with mime type image/png
(src/server.js line 174). -/
theorem missing_mime_defaults_png (cand : GenCandidate) (rest : List GenCandidate)
    (ct : GenContent) (parts : List GenPart) (ip : GenPart) (d : String)
    (h1 : cand.content = some ct) (h2 : ct.parts = some parts)
    (h3 : parts.find? partHasImage = some ip)
    (h4 : ip.inlineData = some ⟨some d, none⟩) :
    extractImage ⟨some (cand :: rest)⟩ = Except.ok (d, "image/png") := by
  simp [extractImage, h1, h2, h3, partData, partMime, h4, jsOrOpt]

/-- Witness for C10: an inline part carrying data but no mime type. -/
theorem missing_mime_defaults_png_witness :
    extractImage ⟨some [⟨some ⟨some [⟨none, some ⟨some "AAAA", none⟩⟩]⟩⟩]⟩ =
      Except.ok ("AAAA", "image/png") := by
  have h := missing_mime_defaults_png ⟨some ⟨some [⟨none, some ⟨some "AAAA", none⟩⟩]⟩⟩
    [] ⟨some [⟨none, some ⟨some "AAAA", none⟩⟩]⟩ [⟨none, some ⟨some "AAAA", none⟩⟩]
    ⟨none, some ⟨some "AAAA", none⟩⟩ "AAAA" rfl rfl rfl rfl
  exact h

/-! ## Claim C5: the NoImageReturned error detail -/

/-- Claim C5 (amended): when the first candidate has a parts array with no
truthy-inline-data part, the client fails, and when that candidate has a
truthy text part the error detail quotes the first such part's content
truncated to its first 100 characters.  Text parts of other candidates
are never inspected (see the counterexample for the original claim). -/
theorem noImage_error_quotes_first_candidate_text (cand : GenCandidate)
    (rest : List GenCandidate) (ct : GenContent) (parts : List GenPart)
    (tp : GenPart) (t : String)
    (h1 : cand.content = some ct) (h2 : ct.parts = some parts)
    (h3 : parts.find? partHasImage = none)
    (h4 : parts.find? partHasText = some tp) (h5 : tp.text = some t) :
    extractImage ⟨some (cand :: rest)⟩ =
      Except.error ("Image generation failed. Model returned only text: \""
        ++ String.mk (t.data.take 100) ++ "...\"") ∧
    containsStr ("Image generation failed. Model returned only text: \""
        ++ String.mk (t.data.take 100) ++ "...\"") (String.mk (t.data.take 100)) = true ∧
    (String.mk (t.data.take 100)).data.length ≤ 100 := by
  refine ⟨?_, ?_, ?_⟩
  · simp [extractImage, h1, h2, h3, h4, h5]
  · exact containsStr_append_middle
      "Image generation failed. Model returned only text: \""
      (String.mk (t.data.take 100)) "...\""
  · show (t.data.take 100).length ≤ 100
    rw [List.length_take]
    exact min_le_left _ _

/-- Witness for C5 (amended) at the spec's example: two candidates, the
first carrying only the text part "sorry". -/
theorem noImage_error_quotes_first_candidate_text_witness :
    extractImage ⟨some [⟨some ⟨some [⟨some "sorry", none⟩]⟩⟩, ⟨none⟩]⟩ =
      Except.error ("Image generation failed. Model returned only text: \""
        ++ String.mk (("sorry").data.take 100) ++ "...\"") ∧
    containsStr ("Image generation failed. Model returned only text: \""
        ++ String.mk (("sorry").data.take 100) ++ "...\"") "sorry" = true := by
  have h := noImage_error_quotes_first_candidate_text
    ⟨some ⟨some [⟨some "sorry", none⟩]⟩⟩ [⟨none⟩] ⟨some [⟨some "sorry", none⟩]⟩
    [⟨some "sorry", none⟩] ⟨some "sorry", none⟩ "sorry" rfl rfl rfl rfl rfl
  exact ⟨h.1, by decide⟩

/-- Counterexample to C5 as stated: a response with no inline-binary part
anywhere whose only text part sits in the second candidate; the error
detail is the generic message and does not contain that text. -/
theorem text_in_second_candidate_not_quoted :
    hasImageAnywhere textOnlySecondCandidate = false ∧
    hasTextContent textOnlySecondCandidate "sorry" = true ∧
    extractImage textOnlySecondCandidate =
      Except.error "Image generation failed. Response does not contain inline image data." ∧
    containsStr "Image generation failed. Response does not contain inline image data."
      "sorry" = false := by
  refine ⟨by decide, by decide, rfl, by decide⟩

/-! ## Further infix lemmas and the material-block normal form -/

theorem infixOfB_append_of (a : List Char) {x l : List Char}
    (h : infixOfB x l = true) : infixOfB x (a ++ l) = true := by
  induction a with
  | nil => exact h
  | cons c cs ih => exact infixOfB_cons_of c ih

/-- Claim C6 (amended): a missing, non-string or blank prompt, or a falsy
(missing or empty) slabImageUrl, yields HTTP 400 with ok:false and an
error message, and neither the asset fetch nor the generation call is
reached; a blank prompt yields exactly "Prompt cannot be empty.".  (A
whitespace-only slabImageUrl is truthy and passes validation — see the
counterexample: it produces 500, not 400, though still with no network
call.) -/
theorem blank_input_yields_400 (b : ReqBody)
    (fo : String → HttpResponse) (go : GenerateRequest → GenResponse)
    (h : promptOk b.prompt = false ∨
         (promptOk b.prompt = true ∧ jsTruthy b.slabImageUrl = false)) :
    (designHandler (some b) fo go).status = 400 ∧
    (designHandler (some b) fo go).ok = false ∧
    (designHandler (some b) fo go).fetchCalled = false ∧
    (designHandler (some b) fo go).genCalled = false ∧
    (promptOk b.prompt = false →
      (designHandler (some b) fo go).error = some "Prompt cannot be empty.") ∧
    (promptOk b.prompt = true →
      (designHandler (some b) fo go).error =
        some "slabImageUrl is missing. Please select a slab first.") := by
  rcases h with h | ⟨h1, h2⟩
  · refine ⟨?_, ?_, ?_, ?_, ?_, ?_⟩ <;> simp [designHandler, h]
  · refine ⟨?_, ?_, ?_, ?_, ?_, ?_⟩ <;> simp [designHandler, h1, h2]

/-- Witness for C6 (amended): the spec's end-to-end empty-prompt scenario. -/
theorem blank_input_yields_400_witness :
    (designHandler (some ⟨JsVal.str "", JsVal.str "https://already.https/url.jpg", none⟩)
        fetchOkOracle genOkOracle).status = 400 ∧
    (designHandler (some ⟨JsVal.str "", JsVal.str "https://already.https/url.jpg", none⟩)
        fetchOkOracle genOkOracle).error = some "Prompt cannot be empty." := by
  have h := blank_input_yields_400
    ⟨JsVal.str "", JsVal.str "https://already.https/url.jpg", none⟩
    fetchOkOracle genOkOracle (Or.inl (by decide))
  exact ⟨h.1, h.2.2.2.2.1 (by decide)⟩

/-- Counterexample to C6 as stated: a whitespace-only (hence blank)
slabImageUrl passes the handler's truthiness check, so the request is not
rejected with 400; it fails later in resolution with 500 (still without
any network call). -/
theorem whitespace_slab_url_yields_500 :
    promptOk (JsVal.str "Modern bathroom") = true ∧
    jsTrim (" ") = "" ∧
    (designHandler (some ⟨JsVal.str "Modern bathroom", JsVal.str " ", none⟩)
        fetchOkOracle genOkOracle).status = 500 ∧
    ¬((designHandler (some ⟨JsVal.str "Modern bathroom", JsVal.str " ", none⟩)
        fetchOkOracle genOkOracle).status = 400) ∧
    (designHandler (some ⟨JsVal.str "Modern bathroom", JsVal.str " ", none⟩)
        fetchOkOracle genOkOracle).fetchCalled = false := by
  refine ⟨by decide, by decide, rfl, ?_, rfl⟩
  intro hcon
  rw [show (designHandler (some ⟨JsVal.str "Modern bathroom", JsVal.str " ", none⟩)
      fetchOkOracle genOkOracle).status = 500 from rfl] at hcon
  exact absurd hcon (by decide)

/-! ## Claim C9: fetch failures carry the status, never the body -/

/-- Claim C9: when the resolved URL's fetch returns a non-ok response, the
handler responds 500 with the error message built from the status and
status text only; the message contains the decimal status, the generation
stage is never reached, and the message is unchanged under any variation
of the response body (the body is captured only for logging). -/
theorem fetch_failure_error_hides_body (b : ReqBody) (url : String)
    (fo : String → HttpResponse) (go : GenerateRequest → GenResponse)
    (hp : promptOk b.prompt = true)
    (hs : jsTruthy b.slabImageUrl = true)
    (hw : wixToHttps b.slabImageUrl = some url)
    (hok : (fo url).ok = false) :
    (designHandler (some b) fo go).status = 500 ∧
    (designHandler (some b) fo go).error
      = some ("Slab image download failed: " ++ Nat.repr (fo url).status
          ++ " " ++ (fo url).statusText) ∧
    (designHandler (some b) fo go).genCalled = false ∧
    containsStr ("Slab image download failed: " ++ Nat.repr (fo url).status
        ++ " " ++ (fo url).statusText) (Nat.repr (fo url).status) = true ∧
    ∀ fo2 : String → HttpResponse, (fo2 url).ok = false →
      (fo2 url).status = (fo url).status →
      (fo2 url).statusText = (fo url).statusText →
      (designHandler (some b) fo2 go).error
        = some ("Slab image download failed: " ++ Nat.repr (fo url).status
            ++ " " ++ (fo url).statusText) := by
  have hmsg : ∀ (st : Nat) (sx : String),
      ("Slab image download failed: " ++ Nat.repr st ++ " " ++ sx).data.isEmpty
        = false := fun _ _ => rfl
  refine ⟨?_, ?_, ?_, ?_, ?_⟩
  · simp [designHandler, hp, hs, hw, downloadImageToBase64, hok, catch500]
  · simp [designHandler, hp, hs, hw, downloadImageToBase64, hok, catch500, hmsg]
  · simp [designHandler, hp, hs, hw, downloadImageToBase64, hok, catch500]
  · show infixOfB (Nat.repr (fo url).status).data _ = true
    simp only [String.data_append, List.append_assoc]
    exact infixOfB_append_of _ (infixOfB_of_prefixOfB (prefixOfB_self_append _ _))
  · intro fo2 h1 h2 h3
    simp [designHandler, hp, hs, hw, downloadImageToBase64, h1, catch500, hmsg,
      h2, h3]

/-- Witness for C9: a 404 with an upstream error page in the body; the
caller-visible error carries the 404 but not the page. -/
theorem fetch_failure_error_hides_body_witness :
    (designHandler (some ⟨JsVal.str "Modern bathroom",
        JsVal.str "https://already.https/url.jpg", none⟩)
        fetch404Oracle genOkOracle).status = 500 ∧
    (designHandler (some ⟨JsVal.str "Modern bathroom",
        JsVal.str "https://already.https/url.jpg", none⟩)
        fetch404Oracle genOkOracle).error
      = some ("Slab image download failed: " ++ Nat.repr 404 ++ " " ++ "Not Found") ∧
    containsStr ("Slab image download failed: " ++ Nat.repr 404 ++ " " ++ "Not Found")
      (Nat.repr 404) = true := by
  have h := fetch_failure_error_hides_body
    ⟨JsVal.str "Modern bathroom", JsVal.str "https://already.https/url.jpg", none⟩
    "https://already.https/url.jpg" fetch404Oracle genOkOracle
    (by decide) (by decide) (by decide) (by decide)
  exact ⟨h.1, h.2.1, h.2.2.2.1⟩
